import Mathlib

/-!
A verification development for `src/tas2505.py`, a MicroPython driver for the
TI TAS2505 digital-input speaker amplifier.

The I2C transport (`machine.I2C`) is modelled as a state machine over an
abstract state type `σ`; every driver operation returns, alongside the
transport outcome, the list of bus/sleep events it issued, so that properties
about bus traffic and ordering can be stated as properties of that trace.
MicroPython's `ustruct.pack('B', v)` truncates to the low 8 bits without
raising, modelled by `packB`.
-/

/-- A transport-level failure (no acknowledgment, timeout, ...), opaque to the
driver; it carries a numeric payload only so that distinct failures exist. -/
structure BusError where
  code : Nat
deriving DecidableEq, Repr

/-- One observable effect of the driver: an attempted one-byte write to a
device memory address, an attempted one-byte read, or a blocking sleep. -/
inductive Event where
  | writeMem (dev : Nat) (addr : Nat) (byte : Nat)
  | readMem (dev : Nat) (addr : Nat)
  | sleepMs (ms : Int)
deriving DecidableEq, Repr

/-- The I2C transport collaborator.  `writeto_mem st dev addr byte` attempts a
one-byte write (the driver only ever packs a single byte); `readfrom_mem`
attempts a one-byte read.  Both may fail with a `BusError`, mirroring a raised
`OSError` in MicroPython. -/
structure I2C (σ : Type) where
  writeto_mem : σ → Nat → Nat → Nat → Except BusError σ
  readfrom_mem : σ → Nat → Nat → Except BusError (σ × Nat)

/-- `ustruct.pack('B', v)`: MicroPython packs the low 8 bits of `v`. -/
def packB (v : Int) : Nat := (v % 256).toNat

/-- `_register = namedtuple('Reg', 'num page')` -/
structure Reg where
  num : Nat
  page : Nat
deriving DecidableEq, Repr

def _PAGE0 : Nat := 0

def _PAGE1 : Nat := 1

def _PAGE_SELECT : Nat := 0x00

namespace TAS2505

/-- `self._address = 0x18`, fixed for this device. -/
def _address : Nat := 0x18

/-- special token used in a script to specify a time delay -/
def DELAY_MS : Int := -999

-- page 0 configuration registers
def SOFTWARE_RESET : Reg := ⟨1, _PAGE0⟩

def CLOCK_SETTING_1 : Reg := ⟨4, _PAGE0⟩

def CLOCK_SETTING_2 : Reg := ⟨5, _PAGE0⟩

def CLOCK_SETTING_3 : Reg := ⟨6, _PAGE0⟩

def CLOCK_SETTING_4 : Reg := ⟨7, _PAGE0⟩

def CLOCK_SETTING_5 : Reg := ⟨8, _PAGE0⟩

def CLOCK_SETTING_6 : Reg := ⟨11, _PAGE0⟩

def CLOCK_SETTING_7 : Reg := ⟨12, _PAGE0⟩

def DAC_OSR_SETTING_1 : Reg := ⟨13, _PAGE0⟩

def DAC_OSR_SETTING_2 : Reg := ⟨14, _PAGE0⟩

def AUDIO_INTERFACE_SETTING_1 : Reg := ⟨27, _PAGE0⟩

def DAC_INSTRUCTION_SET : Reg := ⟨60, _PAGE0⟩

def DAC_CHANNEL_SETUP_1 : Reg := ⟨63, _PAGE0⟩

def DAC_CHANNEL_SETUP_2 : Reg := ⟨64, _PAGE0⟩

def DAC_CHANNEL_DIGITAL_VOLUME_CONTROL : Reg := ⟨65, _PAGE0⟩

-- page 1 configuration registers
def REF_POR_LDO_BGAP_CONTROL : Reg := ⟨1, _PAGE1⟩

def LDO_CONTROL : Reg := ⟨2, _PAGE1⟩

def COMMON_MODE_CONTROL : Reg := ⟨10, _PAGE1⟩

def SPEAKER_AMPLIFIER_CONTROL_1 : Reg := ⟨45, _PAGE1⟩

def SPEAKER_VOLUME_CONTROL_1 : Reg := ⟨46, _PAGE1⟩

def SPEAKER_AMPLIFIER_VOLUME_CONTROL_2 : Reg := ⟨48, _PAGE1⟩

/-- The canonical table of every named register descriptor declared in the
class body, page-0 constants first, then page-1 constants, in source order. -/
def registerTable : List Reg :=
  [SOFTWARE_RESET, CLOCK_SETTING_1, CLOCK_SETTING_2, CLOCK_SETTING_3,
   CLOCK_SETTING_4, CLOCK_SETTING_5, CLOCK_SETTING_6, CLOCK_SETTING_7,
   DAC_OSR_SETTING_1, DAC_OSR_SETTING_2, AUDIO_INTERFACE_SETTING_1,
   DAC_INSTRUCTION_SET, DAC_CHANNEL_SETUP_1, DAC_CHANNEL_SETUP_2,
   DAC_CHANNEL_DIGITAL_VOLUME_CONTROL, REF_POR_LDO_BGAP_CONTROL, LDO_CONTROL,
   COMMON_MODE_CONTROL, SPEAKER_AMPLIFIER_CONTROL_1, SPEAKER_VOLUME_CONTROL_1,
   SPEAKER_AMPLIFIER_VOLUME_CONTROL_2]

/-- First element of a script action: in the Python source it is either a
register descriptor (a `Reg` namedtuple) or a plain integer (`DELAY_MS`). -/
inductive Elem where
  | reg (r : Reg)
  | int (n : Int)
deriving DecidableEq, Repr

/-- Python `==` between a script action's first element and an `int`
(`action[0] == TAS2505.DELAY_MS`): a namedtuple never compares equal to an
`int`, an `int` compares by value. -/
def pyEqInt : Elem → Int → Bool
  | .int n, m => n == m
  | .reg _, _ => false

/-- `CONFIG_I2S_IN_SPEAKER_OUT`: the default script configuring playback mode,
16-bit I2S input, speaker output, verbatim from the source. -/
def CONFIG_I2S_IN_SPEAKER_OUT : List (Elem × Int) :=
  [(.reg SOFTWARE_RESET, 0b00000001),
   (.int DELAY_MS, 2),
   (.reg LDO_CONTROL, 0b00000000),
   (.reg CLOCK_SETTING_1, 0b00000111),
   (.reg CLOCK_SETTING_2, 0b10010001),
   (.reg CLOCK_SETTING_3, 40),
   (.reg CLOCK_SETTING_4, 0),
   (.reg CLOCK_SETTING_5, 0),
   (.int DELAY_MS, 15),
   (.reg CLOCK_SETTING_6, 0b10000001),
   (.reg CLOCK_SETTING_7, 0b10000010),
   (.reg DAC_OSR_SETTING_1, 0x02),
   (.reg DAC_OSR_SETTING_2, 0x80),
   (.reg AUDIO_INTERFACE_SETTING_1, 0b00000000),
   (.reg DAC_INSTRUCTION_SET, 0b00000010),
   (.reg REF_POR_LDO_BGAP_CONTROL, 0b00010000),
   (.reg COMMON_MODE_CONTROL, 0b00000000),
   (.reg SPEAKER_VOLUME_CONTROL_1, 0),
   (.reg SPEAKER_AMPLIFIER_VOLUME_CONTROL_2, 0b00000000),
   (.reg SPEAKER_AMPLIFIER_CONTROL_1, 0b00000010),
   (.reg DAC_CHANNEL_SETUP_1, 0b10010001),
   (.reg DAC_CHANNEL_DIGITAL_VOLUME_CONTROL, 0),
   (.reg DAC_CHANNEL_SETUP_2, 0b00000100)]

/-- `_set_page`: pack the page number as one byte and write it to the
page-select address.  The issued transaction is recorded even when the
transport fails it (the attempt was made). -/
def _set_page {σ : Type} (i2c : I2C σ) (s : σ) (page : Nat) :
    List Event × Except BusError σ :=
  let wreg := page % 256
  ([Event.writeMem _address _PAGE_SELECT wreg],
   i2c.writeto_mem s _address _PAGE_SELECT wreg)

/-- `_set_register`: select the register's page, then write the packed value
byte to the register's in-page address.  A failed page select aborts before
the value write, mirroring the raised exception. -/
def _set_register {σ : Type} (i2c : I2C σ) (s : σ) (reg : Reg) (value : Int) :
    List Event × Except BusError σ :=
  match _set_page i2c s reg.page with
  | (t, Except.error e) => (t, Except.error e)
  | (t, Except.ok s1) =>
    let wreg := packB value
    (t ++ [Event.writeMem _address reg.num wreg],
     i2c.writeto_mem s1 _address reg.num wreg)

/-- `read_register`: select the register's page, then read one byte from the
register's in-page address (`ret[0]` of the one-byte buffer). -/
def read_register {σ : Type} (i2c : I2C σ) (s : σ) (reg : Reg) :
    List Event × Except BusError (σ × Nat) :=
  match _set_page i2c s reg.page with
  | (t, Except.error e) => (t, Except.error e)
  | (t, Except.ok s1) =>
    (t ++ [Event.readMem _address reg.num],
     i2c.readfrom_mem s1 _address reg.num)

/-- Failures surfacing out of `config`: a propagated transport error, or the
`AttributeError` Python would raise when an action's first element is an
integer other than `DELAY_MS` (it has no `.page`/`.num` fields). -/
inductive Err where
  | bus (e : BusError)
  | attr
deriving DecidableEq, Repr

/-- `config`: iterate the script's actions in order; an action whose first
element equals `DELAY_MS` sleeps for `action[1]` milliseconds, any other
action is a register write via `_set_register`; a raised transport error
aborts the remaining actions. -/
def config {σ : Type} (i2c : I2C σ) (s : σ) :
    List (Elem × Int) → List Event × Except Err σ
  | [] => ([], Except.ok s)
  | action :: rest =>
    if pyEqInt action.1 DELAY_MS then
      let r := config i2c s rest
      (Event.sleepMs action.2 :: r.1, r.2)
    else
      match action.1 with
      | Elem.reg reg =>
        match _set_register i2c s reg action.2 with
        | (t, Except.error e) => (t, Except.error (Err.bus e))
        | (t, Except.ok s1) =>
          let r := config i2c s1 rest
          (t ++ r.1, r.2)
      | Elem.int _ => ([], Except.error Err.attr)

/-- `set_speaker_amplifier_volume`: write `volume << 4` to
`SPEAKER_AMPLIFIER_VOLUME_CONTROL_2`. -/
def set_speaker_amplifier_volume {σ : Type} (i2c : I2C σ) (s : σ)
    (volume : Int) : List Event × Except BusError σ :=
  _set_register i2c s SPEAKER_AMPLIFIER_VOLUME_CONTROL_2 (volume * 2 ^ 4)

/-- A script action is well formed when its first element is a register
descriptor or the `DELAY_MS` sentinel (the spec's two action variants). -/
def goodElem : Elem → Bool
  | .reg _ => true
  | .int n => n == DELAY_MS

/-- A transport whose writes always succeed (the device acknowledges every
write transaction). -/
def AcksWrites {σ : Type} (i2c : I2C σ) : Prop :=
  ∀ (s : σ) (dev addr byte : Nat), ∃ s', i2c.writeto_mem s dev addr byte = Except.ok s'

/-- Modelled from the spec (§8): the bus traffic one action is expected to
produce — a register-write action is one page-select write immediately
followed by the value write; a delay action is a single blocking sleep and
zero bus transactions. -/
def specActionTrace : Elem × Int → List Event
  | (Elem.reg r, v) =>
    [Event.writeMem _address _PAGE_SELECT (r.page % 256),
     Event.writeMem _address r.num (packB v)]
  | (Elem.int _, ms) => [Event.sleepMs ms]

/-- Modelled from the spec (§4.4): the whole script's expected trace, each
action's expected traffic in script order. -/
def specScriptTrace : List (Elem × Int) → List Event
  | [] => []
  | a :: rest => specActionTrace a ++ specScriptTrace rest

/-- A transport with no observable state that acknowledges everything and
reads back zero. -/
def trivialBus : I2C Unit :=
  { writeto_mem := fun _ _ _ _ => Except.ok ()
    readfrom_mem := fun _ _ _ => Except.ok ((), 0) }

/-- A transport that acknowledges the first `n` transactions (its state is a
countdown) and then fails every further transaction with `BusError 0`. -/
def failBus : I2C Nat :=
  { writeto_mem := fun n _ _ _ =>
      if n = 0 then Except.error ⟨0⟩ else Except.ok (n - 1)
    readfrom_mem := fun n _ _ =>
      if n = 0 then Except.error ⟨0⟩ else Except.ok (n - 1, 0) }

/-- State of the fidelity-preserving mock device of §8: the currently selected
page and, per (selected page, flat address), the byte last written there. -/
structure DeviceState where
  currentPage : Nat
  mem : Nat → Nat → Nat

/-- Modelled from the spec (§8): a fidelity-preserving mock bus — a write to
the page-select address selects the page; any other write stores its byte
under (selected page, flat address); a read returns the byte last written to
the same flat address after the same page selection. -/
def fidelityBus : I2C DeviceState :=
  { writeto_mem := fun s _ addr byte =>
      if addr = _PAGE_SELECT then Except.ok { s with currentPage := byte }
      else Except.ok { s with
        mem := fun p a => if p = s.currentPage ∧ a = addr then byte else s.mem p a }
    readfrom_mem := fun s _ addr =>
      if addr = _PAGE_SELECT then Except.ok (s, s.currentPage)
      else Except.ok (s, s.mem s.currentPage addr) }

/-- The byte a completed read returns, `none` on a transport failure. -/
def resultByte {σ : Type} : Except BusError (σ × Nat) → Option Nat
  | Except.ok (_, b) => some b
  | Except.error _ => none

/-- A three-write demo script (no delays), used with `failBus` to compare runs
that fail at different action indices. -/
def demoScript3 : List (Elem × Int) :=
  [(Elem.reg SOFTWARE_RESET, 1), (Elem.reg LDO_CONTROL, 2),
   (Elem.reg CLOCK_SETTING_1, 3)]

/-- A fresh mock device: page 0 selected, all memory zeroed. -/
def initialDevice : DeviceState := ⟨0, fun _ _ => 0⟩

/-- Packing a byte-ranged value is the identity. -/
theorem packB_eq_of_lt (v : Nat) (hv : v < 256) : packB (v : Int) = v := by
  unfold packB
  omega

/-- Running `config` on `xs ++ ys` first runs `xs`; if that succeeds, `ys`
continues from the reached state and the traces concatenate. -/
theorem config_append_ok {σ : Type} (i2c : I2C σ) (xs : List (Elem × Int)) :
    ∀ (s s1 : σ) (t : List Event) (ys : List (Elem × Int)),
      config i2c s xs = (t, Except.ok s1) →
      config i2c s (xs ++ ys) =
        (t ++ (config i2c s1 ys).1, (config i2c s1 ys).2) := by
  induction xs with
  | nil =>
    intro s s1 t ys h
    simp [config] at h
    obtain ⟨rfl, rfl⟩ := h
    simp
  | cons a rest ih =>
    intro s s1 t ys h
    obtain ⟨e, v⟩ := a
    cases e with
    | int n =>
      by_cases hn : (n == DELAY_MS) = true
      · rcases hc : config i2c s rest with ⟨t0, r0⟩
        simp [config, pyEqInt, hn, hc] at h
        obtain ⟨rfl, rfl⟩ := h
        have h2 := ih s s1 t0 ys hc
        simp [config, pyEqInt, hn, h2]
      · simp [config, pyEqInt, hn] at h
    | reg r =>
      rcases hsr : _set_register i2c s r v with ⟨t0, r0⟩
      cases r0 with
      | error e0 =>
        simp [config, pyEqInt, hsr] at h
      | ok smid =>
        rcases hc : config i2c smid rest with ⟨t1, r1⟩
        simp [config, pyEqInt, hsr, hc] at h
        obtain ⟨rfl, rfl⟩ := h
        have h2 := ih smid s1 t1 ys hc
        simp [config, pyEqInt, hsr, h2]

/-- Running `config` on `xs ++ ys` when `xs` already fails never touches
`ys`: the trace and error are exactly those of `xs`. -/
theorem config_append_error {σ : Type} (i2c : I2C σ) (xs : List (Elem × Int)) :
    ∀ (s : σ) (t : List Event) (e : Err) (ys : List (Elem × Int)),
      config i2c s xs = (t, Except.error e) →
      config i2c s (xs ++ ys) = (t, Except.error e) := by
  induction xs with
  | nil =>
    intro s t e ys h
    simp [config] at h
  | cons a rest ih =>
    intro s t e ys h
    obtain ⟨el, v⟩ := a
    cases el with
    | int n =>
      by_cases hn : (n == DELAY_MS) = true
      · rcases hc : config i2c s rest with ⟨t0, r0⟩
        simp [config, pyEqInt, hn, hc] at h
        obtain ⟨rfl, rfl⟩ := h
        have h2 := ih s t0 e ys hc
        simp [config, pyEqInt, hn, h2]
      · simp [config, pyEqInt, hn] at h
        obtain ⟨rfl, rfl⟩ := h
        simp [config, pyEqInt, hn]
    | reg r =>
      rcases hsr : _set_register i2c s r v with ⟨t0, r0⟩
      cases r0 with
      | error e0 =>
        simp [config, pyEqInt, hsr] at h
        obtain ⟨rfl, rfl⟩ := h
        simp [config, pyEqInt, hsr]
      | ok smid =>
        rcases hc : config i2c smid rest with ⟨t1, r1⟩
        simp [config, pyEqInt, hsr, hc] at h
        obtain ⟨rfl, rfl⟩ := h
        have h2 := ih smid t1 e ys hc
        simp [config, pyEqInt, hsr, h2]

/-- C1: `config` processes a well-formed script's actions strictly in order
against an acknowledging bus: the emitted trace is exactly, action by action
in script order, a page-select transaction immediately followed by the value
write for each register-write action, and a single sleep with zero bus
transactions for each delay action, and the run completes. -/
theorem config_in_order {σ : Type} (i2c : I2C σ) (hack : AcksWrites i2c)
    (script : List (Elem × Int)) (hwf : ∀ a ∈ script, goodElem a.1 = true)
    (s : σ) :
    (config i2c s script).1 = specScriptTrace script ∧
      ∃ s', (config i2c s script).2 = Except.ok s' := by
  induction script generalizing s with
  | nil => simp [config, specScriptTrace]
  | cons a rest ih =>
    obtain ⟨e, v⟩ := a
    have hwf' : ∀ a ∈ rest, goodElem a.1 = true := fun a ha =>
      hwf a (List.mem_cons_of_mem _ ha)
    cases e with
    | int n =>
      have hn : (n == DELAY_MS) = true := by
        simpa [goodElem] using hwf (Elem.int n, v) (List.mem_cons_self _ _)
      have h := ih hwf' s
      simp [config, pyEqInt, hn, specScriptTrace, specActionTrace]
      exact h
    | reg r =>
      obtain ⟨s1, h1⟩ := hack s _address _PAGE_SELECT (r.page % 256)
      obtain ⟨s2, h2⟩ := hack s1 _address r.num (packB v)
      have h := ih hwf' s2
      simp [config, pyEqInt, _set_register, _set_page, h1, h2,
        specScriptTrace, specActionTrace]
      exact h

/-- C1 witness: the default script is well formed and running it over the
trivial acknowledging bus yields exactly the expected per-action trace. -/
theorem config_in_order_witness :
    AcksWrites trivialBus ∧
    (∀ a ∈ CONFIG_I2S_IN_SPEAKER_OUT, goodElem a.1 = true) ∧
    ((config trivialBus () CONFIG_I2S_IN_SPEAKER_OUT).1 =
        specScriptTrace CONFIG_I2S_IN_SPEAKER_OUT ∧
      ∃ s', (config trivialBus () CONFIG_I2S_IN_SPEAKER_OUT).2 = Except.ok s') :=
  ⟨fun _ _ _ _ => ⟨(), rfl⟩, by decide,
    config_in_order trivialBus (fun _ _ _ _ => ⟨(), rfl⟩)
      CONFIG_I2S_IN_SPEAKER_OUT (by decide) ()⟩

/-- C2: from any prior bus state, a single register access is exactly two bus
transactions: a write of the byte `d.page` to the fixed page-select address,
then a write of the byte `v` to (for a read: a one-byte read from) `d.num` at
the device's fixed bus address. -/
theorem register_access_two_transactions {σ : Type} (i2c : I2C σ)
    (hack : AcksWrites i2c) (s : σ) (d : Reg) (v : Nat)
    (hp : d.page < 256) (hv : v < 256) :
    (_set_register i2c s d (v : Int)).1 =
      [Event.writeMem _address _PAGE_SELECT d.page,
       Event.writeMem _address d.num v] ∧
    (read_register i2c s d).1 =
      [Event.writeMem _address _PAGE_SELECT d.page,
       Event.readMem _address d.num] := by
  obtain ⟨s1, h1⟩ := hack s _address _PAGE_SELECT (d.page % 256)
  rw [Nat.mod_eq_of_lt hp] at h1
  constructor
  · simp [_set_register, _set_page, h1, Nat.mod_eq_of_lt hp, packB_eq_of_lt v hv]
  · simp [read_register, _set_page, h1, Nat.mod_eq_of_lt hp]

/-- C2 witness: `write_register(SPEAKER_VOLUME_CONTROL_1, 0)` issues the
page-select write of byte 1 then the value write of byte 0, and a read issues
the page select then the one-byte read. -/
theorem register_access_two_transactions_witness :
    AcksWrites trivialBus ∧ SPEAKER_VOLUME_CONTROL_1.page < 256 ∧
    (0 : Nat) < 256 ∧
    ((_set_register trivialBus () SPEAKER_VOLUME_CONTROL_1 ((0 : Nat) : Int)).1 =
      [Event.writeMem _address _PAGE_SELECT SPEAKER_VOLUME_CONTROL_1.page,
       Event.writeMem _address SPEAKER_VOLUME_CONTROL_1.num 0] ∧
     (read_register trivialBus () SPEAKER_VOLUME_CONTROL_1).1 =
      [Event.writeMem _address _PAGE_SELECT SPEAKER_VOLUME_CONTROL_1.page,
       Event.readMem _address SPEAKER_VOLUME_CONTROL_1.num]) :=
  ⟨fun _ _ _ _ => ⟨(), rfl⟩, by decide, by decide,
    register_access_two_transactions trivialBus (fun _ _ _ _ => ⟨(), rfl⟩) ()
      SPEAKER_VOLUME_CONTROL_1 0 (by decide) (by decide)⟩

/-- C3: when the bus transaction of one action fails, `config` stops
immediately: the whole run's trace is exactly the prefix's trace followed by
the failing action's attempted transactions — nothing of the following actions
(no writes, no sleeps), no retry, no rollback of the prefix — and the bus
error surfaces. -/
theorem config_fail_fast {σ : Type} (i2c : I2C σ) (s : σ)
    (pre post : List (Elem × Int)) (r : Reg) (v : Int)
    (t1 t2 : List Event) (s1 : σ) (e : BusError)
    (hpre : config i2c s pre = (t1, Except.ok s1))
    (hfail : _set_register i2c s1 r v = (t2, Except.error e)) :
    config i2c s (pre ++ (Elem.reg r, v) :: post) =
      (t1 ++ t2, Except.error (Err.bus e)) := by
  rw [config_append_ok i2c pre s s1 t1 ((Elem.reg r, v) :: post) hpre]
  simp [config, pyEqInt, hfail]

/-- C3 witness: with a bus that acknowledges exactly two transactions, a
three-action script fails on its second action's page select, and the run is
the first action's two writes plus the single failed attempt — nothing from
the third action. -/
theorem config_fail_fast_witness :
    config failBus 2 [(Elem.reg SOFTWARE_RESET, 1)] =
      ([Event.writeMem _address _PAGE_SELECT 0, Event.writeMem _address 1 1],
        Except.ok 0) ∧
    _set_register failBus 0 LDO_CONTROL 2 =
      ([Event.writeMem _address _PAGE_SELECT 1], Except.error ⟨0⟩) ∧
    config failBus 2 ([(Elem.reg SOFTWARE_RESET, 1)] ++
        (Elem.reg LDO_CONTROL, 2) :: [(Elem.reg CLOCK_SETTING_1, 3)]) =
      ([Event.writeMem _address _PAGE_SELECT 0, Event.writeMem _address 1 1] ++
        [Event.writeMem _address _PAGE_SELECT 1],
        Except.error (Err.bus ⟨0⟩)) :=
  ⟨rfl, rfl,
    config_fail_fast failBus 2 [(Elem.reg SOFTWARE_RESET, 1)]
      [(Elem.reg CLOCK_SETTING_1, 3)] LDO_CONTROL 2 _ _ 0 ⟨0⟩ rfl rfl⟩

/-- C4 counterexample: the claim that a failing `config` reports a
`ScriptError` wrapping the bus error together with the failing action's index
is false — runs of the same script that fail during action 0 (one transaction
issued) and during action 1 (three transactions issued) surface bit-identical
error values, so the reported error identifies no action index. -/
theorem config_error_carries_no_index :
    (config failBus 0 demoScript3).1.length = 1 ∧
    (config failBus 2 demoScript3).1.length = 3 ∧
    (config failBus 0 demoScript3).2 = (config failBus 2 demoScript3).2 ∧
    (config failBus 0 demoScript3).2 = Except.error (Err.bus ⟨0⟩) :=
  ⟨rfl, rfl, rfl, rfl⟩

/-- C4 (amended): when a bus transaction fails during an action of `config`,
the error reported to the caller is the underlying bus error itself,
propagated unchanged, with no wrapper carrying the failing action's index or
identity. -/
theorem config_error_is_raw_bus_error {σ : Type} (i2c : I2C σ) (s : σ)
    (pre post : List (Elem × Int)) (r : Reg) (v : Int)
    (t1 t2 : List Event) (s1 : σ) (e : BusError)
    (hpre : config i2c s pre = (t1, Except.ok s1))
    (hfail : _set_register i2c s1 r v = (t2, Except.error e)) :
    (config i2c s (pre ++ (Elem.reg r, v) :: post)).2 =
      Except.error (Err.bus e) := by
  rw [config_append_ok i2c pre s s1 t1 ((Elem.reg r, v) :: post) hpre]
  simp [config, pyEqInt, hfail]

/-- C4 witness: a script failing on its very first action surfaces exactly the
bus's own error value. -/
theorem config_error_is_raw_bus_error_witness :
    config failBus 0 ([] : List (Elem × Int)) = ([], Except.ok 0) ∧
    _set_register failBus 0 SOFTWARE_RESET 1 =
      ([Event.writeMem _address _PAGE_SELECT 0], Except.error ⟨0⟩) ∧
    (config failBus 0 (([] : List (Elem × Int)) ++
        (Elem.reg SOFTWARE_RESET, 1) :: [])).2 = Except.error (Err.bus ⟨0⟩) :=
  ⟨rfl, rfl,
    config_error_is_raw_bus_error failBus 0 [] [] SOFTWARE_RESET 1 [] _ 0 ⟨0⟩ rfl rfl⟩

/-- C5: for every canonical descriptor and every byte value, writing the
register and then reading it back over the fidelity-preserving mock bus
returns the written value, from any starting device state. -/
theorem write_then_read_roundtrip (d : Reg) (hd : d ∈ registerTable)
    (v : Nat) (hv : v ≤ 255) (s : DeviceState) :
    ∃ s', (_set_register fidelityBus s d (v : Int)).2 = Except.ok s' ∧
      resultByte (read_register fidelityBus s' d).2 = some v := by
  have hnum : d.num ≠ _PAGE_SELECT := by
    have h : ∀ r ∈ registerTable, decide (r.num ≠ _PAGE_SELECT) = true := by decide
    simpa using h d hd
  refine ⟨⟨d.page % 256, fun p a =>
    if p = d.page % 256 ∧ a = d.num then packB (v : Int) else s.mem p a⟩, ?_, ?_⟩
  · simp [_set_register, _set_page, fidelityBus, hnum]
  · simp [read_register, _set_page, fidelityBus, resultByte, hnum,
      packB_eq_of_lt v (by omega)]

/-- C5 witness: writing 42 to `SOFTWARE_RESET` on a fresh mock device and
reading it back returns 42. -/
theorem write_then_read_roundtrip_witness :
    SOFTWARE_RESET ∈ registerTable ∧ (42 : Nat) ≤ 255 ∧
    ∃ s', (_set_register fidelityBus initialDevice SOFTWARE_RESET
        ((42 : Nat) : Int)).2 = Except.ok s' ∧
      resultByte (read_register fidelityBus s' SOFTWARE_RESET).2 = some 42 :=
  ⟨by decide, by decide,
    write_then_read_roundtrip SOFTWARE_RESET (by decide) 42 (by decide) initialDevice⟩

/-- C6: applying the default configuration script over a bus that acknowledges
every transaction completes without error, and the trace is exactly one
page-select write immediately before each of the 21 register writes, in script
order, with the 2 ms sleep right after the software-reset write and the 15 ms
sleep right after the PLL configuration writes (device address 24 = 0x18,
page-select address 0). -/
theorem default_script_run :
    (config trivialBus () CONFIG_I2S_IN_SPEAKER_OUT).1 =
      [Event.writeMem 24 0 0, Event.writeMem 24 1 1,
       Event.sleepMs 2,
       Event.writeMem 24 0 1, Event.writeMem 24 2 0,
       Event.writeMem 24 0 0, Event.writeMem 24 4 7,
       Event.writeMem 24 0 0, Event.writeMem 24 5 145,
       Event.writeMem 24 0 0, Event.writeMem 24 6 40,
       Event.writeMem 24 0 0, Event.writeMem 24 7 0,
       Event.writeMem 24 0 0, Event.writeMem 24 8 0,
       Event.sleepMs 15,
       Event.writeMem 24 0 0, Event.writeMem 24 11 129,
       Event.writeMem 24 0 0, Event.writeMem 24 12 130,
       Event.writeMem 24 0 0, Event.writeMem 24 13 2,
       Event.writeMem 24 0 0, Event.writeMem 24 14 128,
       Event.writeMem 24 0 0, Event.writeMem 24 27 0,
       Event.writeMem 24 0 0, Event.writeMem 24 60 2,
       Event.writeMem 24 0 1, Event.writeMem 24 1 16,
       Event.writeMem 24 0 1, Event.writeMem 24 10 0,
       Event.writeMem 24 0 1, Event.writeMem 24 46 0,
       Event.writeMem 24 0 1, Event.writeMem 24 48 0,
       Event.writeMem 24 0 1, Event.writeMem 24 45 2,
       Event.writeMem 24 0 0, Event.writeMem 24 63 145,
       Event.writeMem 24 0 0, Event.writeMem 24 65 0,
       Event.writeMem 24 0 0, Event.writeMem 24 64 4] ∧
    (config trivialBus () CONFIG_I2S_IN_SPEAKER_OUT).2 = Except.ok () :=
  ⟨rfl, rfl⟩

/-- C7: no two distinct entries of the canonical descriptor table share the
same (page, address) pair. -/
theorem descriptor_pairs_distinct :
    List.Pairwise (fun a b : Reg => ¬(a.page = b.page ∧ a.num = b.num))
      registerTable := by decide

/-- C8: the speaker-amplifier volume convenience operation delegates to the
register write of `SPEAKER_AMPLIFIER_VOLUME_CONTROL_2` with the level shifted
left by 4 bits, so the byte written to address 48 on page 1 is `L << 4`. -/
theorem speaker_volume_encodes_shift {σ : Type} (i2c : I2C σ)
    (hack : AcksWrites i2c) (s : σ) (L : Nat) (hL : L < 16) :
    set_speaker_amplifier_volume i2c s (L : Int) =
      _set_register i2c s SPEAKER_AMPLIFIER_VOLUME_CONTROL_2 ((L : Int) * 2 ^ 4) ∧
    (set_speaker_amplifier_volume i2c s (L : Int)).1 =
      [Event.writeMem _address _PAGE_SELECT 1,
       Event.writeMem _address 48 (L * 2 ^ 4)] := by
  obtain ⟨s1, h1⟩ := hack s _address _PAGE_SELECT 1
  have hpack : packB ((L : Int) * 16) = L * 16 := by
    unfold packB
    omega
  constructor
  · rfl
  · simp [set_speaker_amplifier_volume, _set_register, _set_page,
      SPEAKER_AMPLIFIER_VOLUME_CONTROL_2, _PAGE1, h1, hpack]

/-- C8 witness: level 3 writes the byte 48 = 3 << 4 to register 48 on page 1. -/
theorem speaker_volume_encodes_shift_witness :
    AcksWrites trivialBus ∧ (3 : Nat) < 16 ∧
    (set_speaker_amplifier_volume trivialBus () ((3 : Nat) : Int) =
      _set_register trivialBus () SPEAKER_AMPLIFIER_VOLUME_CONTROL_2
        (((3 : Nat) : Int) * 2 ^ 4) ∧
     (set_speaker_amplifier_volume trivialBus () ((3 : Nat) : Int)).1 =
      [Event.writeMem _address _PAGE_SELECT 1,
       Event.writeMem _address 48 (3 * 2 ^ 4)]) :=
  ⟨fun _ _ _ _ => ⟨(), rfl⟩, by decide,
    speaker_volume_encodes_shift trivialBus (fun _ _ _ _ => ⟨(), rfl⟩) () 3 (by decide)⟩

/-- C9: the driver validates nothing: any byte-ranged page number and any
register descriptor/value — also ones outside the device's supported pages 0
and 1 — pass through to the bus unchanged and produce no software error. -/
theorem no_validation_passthrough {σ : Type} (i2c : I2C σ)
    (hack : AcksWrites i2c) (s : σ) (page : Nat) (hp : page < 256)
    (r : Reg) (hrp : r.page < 256) (v : Nat) (hv : v < 256) :
    ((_set_page i2c s page).1 = [Event.writeMem _address _PAGE_SELECT page] ∧
      ∃ s', (_set_page i2c s page).2 = Except.ok s') ∧
    ((_set_register i2c s r (v : Int)).1 =
        [Event.writeMem _address _PAGE_SELECT r.page,
         Event.writeMem _address r.num v] ∧
      ∃ s', (_set_register i2c s r (v : Int)).2 = Except.ok s') := by
  obtain ⟨s1, h1⟩ := hack s _address _PAGE_SELECT (page % 256)
  obtain ⟨s2, h2⟩ := hack s _address _PAGE_SELECT (r.page % 256)
  rw [Nat.mod_eq_of_lt hp] at h1
  rw [Nat.mod_eq_of_lt hrp] at h2
  obtain ⟨s3, h3⟩ := hack s2 _address r.num (packB (v : Int))
  constructor
  · constructor
    · simp [_set_page, Nat.mod_eq_of_lt hp]
    · exact ⟨s1, by simp [_set_page, Nat.mod_eq_of_lt hp, h1]⟩
  · constructor
    · simp [_set_register, _set_page, h2, Nat.mod_eq_of_lt hrp,
        packB_eq_of_lt v hv]
    · exact ⟨s3, by simp [_set_register, _set_page, h2, Nat.mod_eq_of_lt hrp, h3]⟩

/-- C9 witness: page 77 and the made-up register (address 200, page 5) — both
outside anything the device supports — go straight to the bus, unchanged and
without any software error. -/
theorem no_validation_passthrough_witness :
    AcksWrites trivialBus ∧ (77 : Nat) < 256 ∧ (⟨200, 5⟩ : Reg).page < 256 ∧
    (170 : Nat) < 256 ∧
    (((_set_page trivialBus () 77).1 =
        [Event.writeMem _address _PAGE_SELECT 77] ∧
      ∃ s', (_set_page trivialBus () 77).2 = Except.ok s') ∧
     ((_set_register trivialBus () ⟨200, 5⟩ ((170 : Nat) : Int)).1 =
        [Event.writeMem _address _PAGE_SELECT 5,
         Event.writeMem _address 200 170] ∧
      ∃ s', (_set_register trivialBus () ⟨200, 5⟩ ((170 : Nat) : Int)).2 =
        Except.ok s')) :=
  ⟨fun _ _ _ _ => ⟨(), rfl⟩, by decide, by decide, by decide,
    no_validation_passthrough trivialBus (fun _ _ _ _ => ⟨(), rfl⟩) () 77
      (by decide) ⟨200, 5⟩ (by decide) 170 (by decide)⟩

/-- C10: for every canonical descriptor the sentinel test
`action[0] == DELAY_MS` is false — a namedtuple never equals the integer
-999 — so such an action always takes `config`'s register-write branch,
never the delay branch. -/
theorem sentinel_never_matches_descriptor {σ : Type} (i2c : I2C σ) (s : σ)
    (r : Reg) (_hr : r ∈ registerTable) (v : Int) (rest : List (Elem × Int)) :
    pyEqInt (Elem.reg r) DELAY_MS = false ∧
    config i2c s ((Elem.reg r, v) :: rest) =
      (match _set_register i2c s r v with
        | (t, Except.error e) => (t, Except.error (Err.bus e))
        | (t, Except.ok s1) =>
          (t ++ (config i2c s1 rest).1, (config i2c s1 rest).2)) := by
  refine ⟨rfl, ?_⟩
  rcases hsr : _set_register i2c s r v with ⟨t, r0⟩
  cases r0 <;> simp [config, pyEqInt, hsr]

/-- C10 witness: the action `(CLOCK_SETTING_3, 40)` is never classified as a
delay and runs as a register write. -/
theorem sentinel_never_matches_descriptor_witness :
    CLOCK_SETTING_3 ∈ registerTable ∧
    (pyEqInt (Elem.reg CLOCK_SETTING_3) DELAY_MS = false ∧
      config trivialBus () [(Elem.reg CLOCK_SETTING_3, 40)] =
        (match _set_register trivialBus () CLOCK_SETTING_3 40 with
          | (t, Except.error e) => (t, Except.error (Err.bus e))
          | (t, Except.ok s1) =>
            (t ++ (config trivialBus s1 ([] : List (Elem × Int))).1,
             (config trivialBus s1 ([] : List (Elem × Int))).2))) :=
  ⟨by decide,
    sentinel_never_matches_descriptor trivialBus () CLOCK_SETTING_3 (by decide) 40 []⟩

end TAS2505
